import Mathlib

/-!
Shallow embedding of the two billing-enablement scripts of this repository,
`src/dayone/billing-enablement.py` and `src/daytwo/billing-enablement.py`,
together with proofs about the account-selection heuristic, the tagger, the
linker/verifier, the error classification of the billing-account listing, the
retry/backoff schedules, and the exit-code behaviour of both main flows.

External effects (the remote billing service, the `gcloud` invocation, the
interactive prompt) are modelled as oracles supplied in environment records;
machine strings are Lean `String`s and Python string scans are carried out on
their underlying `List Char`.
-/

/-- Python's `str.lower()` applied to the characters of a string.  Both scripts
only ever lower-case ASCII API error text and display names before scanning
them for fixed ASCII patterns. -/
def lowerChars (s : List Char) : List Char := s.map Char.toLower

/-- Python's substring test `needle in hay` on character lists: `true` iff
`needle` occurs contiguously inside `hay`. -/
def containsSub (needle : List Char) : List Char → Bool
  | [] => needle.isEmpty
  | c :: rest => needle.isPrefixOf (c :: rest) || containsSub needle rest

/-- Python's `str.strip()`: remove leading and trailing whitespace. -/
def pyStrip (s : List Char) : List Char :=
  ((s.dropWhile Char.isWhitespace).reverse.dropWhile Char.isWhitespace).reverse

/-- A billing account as both scripts see it: resource `name`, `display_name`,
and the `open` flag (renamed `isOpen`, since `open` is a Lean keyword). -/
structure BillingAccount where
  name : String
  display_name : String
  isOpen : Bool
deriving DecidableEq

/-- A project's billing info as returned by `get_project_billing_info`. -/
structure ProjectBillingInfo where
  billing_account_name : String
  billing_enabled : Bool
deriving DecidableEq

/-- Oracle for `client.list_project_billing_info(name=...)`, keyed by the
billing account's resource name.  `none` models the call raising; `some l`
models a successful listing whose elements we only ever iterate over, so their
payload is irrelevant. -/
structure Client where
  listProjectBillingInfo : String → Option (List Unit)

/-- The counting loop of `get_linked_project_count` (day one lines 91-96,
day two lines 152-157): increment per element and break as soon as the count
is positive. -/
def countLoop : List Unit → Nat → Nat
  | [], count => count
  | _ :: rest, count =>
    let count := count + 1
    if count > 0 then count else countLoop rest count

/-- `get_linked_project_count` (day one lines 87-98, day two lines 142-161):
the loop's count on success, `-1` when the listing raises. -/
def get_linked_project_count (client : Client) (billing_account : BillingAccount) : Int :=
  match client.listProjectBillingInfo billing_account.name with
  | some projects => (countLoop projects 0 : Int)
  | none => -1

/-- `SUFFIX_PATTERN = re.compile(r"-\d{12}$")` combined with `.search`: the
pattern is anchored at the end and has fixed width 13, so a match exists iff
the last 13 characters are `'-'` followed by 12 digits, and the matched text
(`match.group()`) is exactly those 13 characters. -/
def suffixSearch (s : List Char) : Option (List Char) :=
  let t := s.drop (s.length - 13)
  if t.length == 13 && t.head? == some '-' && t.tail.all Char.isDigit then some t else none

/-- The sort key of priority 1 of `find_best_billing_account`:
`"trial billing account" in a.display_name.lower()`. -/
def hasTrialName (a : BillingAccount) : Bool :=
  containsSub "trial billing account".data (lowerChars a.display_name.data)

/-- Order realising `unlinked_accounts.sort(key=λ a, "trial billing account" in
a.display_name.lower(), reverse=True)`: accounts whose key is `true` come
first.  Python's sort is stable and any stable sort under the same total
preorder produces the same list, so we realise it with insertion sort. -/
def trialOrder (a b : BillingAccount) : Prop := hasTrialName b ≤ hasTrialName a

instance : DecidableRel trialOrder := fun a b =>
  inferInstanceAs (Decidable (hasTrialName b ≤ hasTrialName a))

instance : IsTotal BillingAccount trialOrder :=
  ⟨fun a b => le_total (hasTrialName b) (hasTrialName a)⟩

instance : IsTrans BillingAccount trialOrder :=
  ⟨fun _ _ _ hab hbc => le_trans hbc hab⟩

/-- Order realising `tagged_accounts.sort(key=λ x, x[1], reverse=True)`:
pairs with the lexicographically greater matched suffix come first (Python
compares strings lexicographically by code point, as does the lexicographic
order on `List Char`). -/
def tagOrder (p q : BillingAccount × List Char) : Prop := q.2 ≤ p.2

instance : DecidableRel tagOrder := fun p q =>
  inferInstanceAs (Decidable (q.2 ≤ p.2))

instance : IsTotal (BillingAccount × List Char) tagOrder :=
  ⟨fun p q => le_total q.2 p.2⟩

instance : IsTrans (BillingAccount × List Char) tagOrder :=
  ⟨fun _ _ _ hab hbc => le_trans hbc hab⟩

/-- `find_best_billing_account` (day one lines 101-135, day two lines 164-209;
the two definitions are textually identical).  Priority 1: accounts whose
linked-project count is exactly `0`, sorted with trial-named accounts first.
Priority 2: accounts whose display name matches `SUFFIX_PATTERN`, sorted by
matched suffix descending.  Priority 3: the first account.  The Python
function indexes `open_accounts[0]` and so presupposes a non-empty list; the
embedding returns an `Option` that is `none` exactly in that out-of-contract
case. -/
def find_best_billing_account (client : Client) (open_accounts : List BillingAccount) :
    Option BillingAccount :=
  let unlinked_accounts :=
    open_accounts.filter (fun account => get_linked_project_count client account == 0)
  if unlinked_accounts ≠ [] then
    (List.insertionSort trialOrder unlinked_accounts).head?
  else
    let tagged_accounts := open_accounts.filterMap
      (fun account => (suffixSearch account.display_name.data).map (fun m => (account, m)))
    if tagged_accounts ≠ [] then
      ((List.insertionSort tagOrder tagged_accounts).head?).map Prod.fst
    else
      open_accounts.head?

/-- `tag_billing_account` (day one lines 138-157, day two lines 212-238),
viewed as the display name it computes: a no-op when `SUFFIX_PATTERN` already
matches, otherwise the name with the `strftime("-%Y%m%d%H%M")` suffix
appended.  `suffix` stands for the formatted timestamp of the call. -/
def tag_billing_account (suffix : List Char) (display_name : List Char) : List Char :=
  if (suffixSearch display_name).isSome then display_name
  else display_name ++ suffix

/-- One character of a zero-padded decimal field: the digit character of
`n % 10`. -/
def digitChar10 (n : Nat) : Char := Char.ofNat (48 + n % 10)

/-- A zero-padded two-digit field, as `%m`, `%d`, `%H`, `%M` produce for their
in-range values. -/
def pad2 (n : Nat) : List Char := [digitChar10 (n / 10), digitChar10 n]

/-- A zero-padded four-digit field, as `%Y` produces for years up to 9999. -/
def pad4 (n : Nat) : List Char :=
  [digitChar10 (n / 1000), digitChar10 (n / 100), digitChar10 (n / 10), digitChar10 n]

/-- `datetime.now().strftime("-%Y%m%d%H%M")` for a given calendar tuple
(years up to 9999, as `%Y` is four digits there): a dash followed by 12
digits. -/
def strftimeSuffix (y mo d h mi : Nat) : List Char :=
  '-' :: (pad4 y ++ pad2 mo ++ pad2 d ++ pad2 h ++ pad2 mi)

/-- Outcome of one `client.list_billing_accounts()` call before the scripts'
exception handling: a successful listing, a `PermissionDenied` carrying its
message, or any other exception. -/
inductive ListingRaw where
  | ok (accounts : List BillingAccount)
  | permDenied (message : String)
  | otherError
deriving DecidableEq

/-- The substring test both scripts apply to a lower-cased `PermissionDenied`
message (day one lines 167-173, day two lines 110-114):
`"api has not been used" in error_message or "service is disabled" in
error_message`. -/
def looksApiDisabled (message : String) : Bool :=
  let error_message := lowerChars message.data
  containsSub "api has not been used".data error_message ||
    containsSub "service is disabled".data error_message

/-- `get_billing_accounts` of the day-one script (lines 160-188): the Python
function returns either the account list or one of three sentinel strings,
modelled as a sum. -/
def get_billing_accounts_dayone : ListingRaw → List BillingAccount ⊕ String
  | .ok accounts => .inl accounts
  | .permDenied message =>
    if looksApiDisabled message then .inr "API_DISABLED_OR_NO_PERMISSION"
    else .inr "PERMISSION_DENIED"
  | .otherError => .inr "UNEXPECTED_ERROR"

/-- `get_billing_accounts` of the day-two script (lines 104-123): identical
classification, with the propagating-API sentinel spelt
`"API_DISABLED_OR_PROPAGATING"`. -/
def get_billing_accounts_daytwo : ListingRaw → List BillingAccount ⊕ String
  | .ok accounts => .inl accounts
  | .permDenied message =>
    if looksApiDisabled message then .inr "API_DISABLED_OR_PROPAGATING"
    else .inr "PERMISSION_DENIED"
  | .otherError => .inr "UNEXPECTED_ERROR"

/-- Outcome of one `client.get_project_billing_info` call: a result, a
`NotFound` exception, or any other exception. -/
inductive BillingLookup where
  | found (info : ProjectBillingInfo)
  | notFound
  | otherError
deriving DecidableEq

/-- Outcome of the `client.update_project_billing_info` call. -/
inductive UpdateOutcome where
  | ok
  | permissionDenied
  | otherError
deriving DecidableEq

/-- Oracles consumed by one invocation of the linker: the initial
`get_project_billing_info` (used by the day-one variant only), the update
call's outcome, and the per-attempt verification lookups (`none` models the
lookup raising; both scripts swallow verification exceptions). -/
structure LinkEnv where
  getProjectBillingInfo : BillingLookup
  update : UpdateOutcome
  verify : Nat → Option ProjectBillingInfo

/-- The verification loop shared by both linkers (day one lines 239-253,
day two lines 271-284): `i` is the attempt index, the second argument the
remaining attempts; an attempt succeeds when the looked-up info names the
target account and reports billing enabled. -/
def verifyLoop (verify : Nat → Option ProjectBillingInfo) (billing_account_name : String) :
    Nat → Nat → Bool
  | _, 0 => false
  | i, fuel + 1 =>
    match verify i with
    | some info =>
      if info.billing_account_name == billing_account_name && info.billing_enabled then true
      else verifyLoop verify billing_account_name (i + 1) fuel
    | none => verifyLoop verify billing_account_name (i + 1) fuel

/-- `link_billing_account` of the day-two script (lines 241-287).  First
component: the Boolean the function returns; second component: whether
`update_project_billing_info` was called (it always is — the function has no
already-linked short-circuit).  After a successful update the function
returns `True` whether or not verification succeeded ("optimistically
continue"). -/
def link_billing_account (env : LinkEnv) (project_id : String)
    (billing_account : BillingAccount) : Bool × Bool :=
  match env.update with
  | .permissionDenied => (false, true)
  | .otherError => (false, true)
  | .ok =>
    if verifyLoop env.verify billing_account.name 0 6 then (true, true)
    else (true, true)

/-- The distinguishable ways `link_project_to_billing` of the day-one script
can finish; the Python function always returns `None`, so these record which
exit path was taken.  `raised` is the initial `get_project_billing_info`
raising something other than `NotFound`, which the function does not catch. -/
inductive DayOneLinkOutcome where
  | emptyProjectId
  | alreadyLinked
  | raised
  | permissionDenied
  | unexpectedError
  | verified
  | unverifiedWarning
deriving DecidableEq

/-- `link_project_to_billing` of the day-one script (lines 191-256).  First
component: the exit path taken; second component: whether
`update_project_billing_info` was called.  The function returns early —
without the update call — when the current billing info already names the
target account (regardless of the enabled flag). -/
def link_project_to_billing (env : LinkEnv) (target_project_id : String)
    (billing_account_info : BillingAccount) : DayOneLinkOutcome × Bool :=
  if target_project_id = "" then (.emptyProjectId, false)
  else
    let billing_account_name := billing_account_info.name
    let shortCircuit : Option (DayOneLinkOutcome × Bool) :=
      match env.getProjectBillingInfo with
      | .found info =>
        if info.billing_account_name == billing_account_name then some (.alreadyLinked, false)
        else none
      | .notFound => none
      | .otherError => some (.raised, false)
    match shortCircuit with
    | some r => r
    | none =>
      match env.update with
      | .permissionDenied => (.permissionDenied, true)
      | .otherError => (.unexpectedError, true)
      | .ok =>
        if verifyLoop env.verify billing_account_name 0 6 then (.verified, true)
        else (.unverifiedWarning, true)

/-- `get_project_id` of the day-two script (lines 54-69) and, identically,
`get_project_id_from_file` of the day-one script (lines 36-53): `none` models
a missing file (or the day-two `sys.exit(1)` paths), an empty stripped
content is rejected, otherwise the stripped content is the project id. -/
def get_project_id (fileContent : Option String) : Option String :=
  match fileContent with
  | none => none
  | some s =>
    let project_id := String.mk (pyStrip s.data)
    if project_id = "" then none else some project_id

/-- `check_current_billing` of the day-two script (lines 126-139): total by
construction — every exception branch (NotFound or any other) yields
`(False, None)`, as does a lookup reporting billing disabled. -/
def check_current_billing : BillingLookup → Bool × Option String
  | .found info =>
    if info.billing_enabled then (true, some info.billing_account_name) else (false, none)
  | .notFound => (false, none)
  | .otherError => (false, none)

/-- The API-propagation retry loop shared by both mains (day one lines
278-289, day two lines 318-327): up to `fuel` further listing attempts,
stopping at the first result other than the propagating sentinel; `k` indexes
the next listing call.  When the budget is exhausted the last computed result
is the sentinel itself. -/
def apiRetryLoop (get : ListingRaw → List BillingAccount ⊕ String) (sentinel : String)
    (listings : Nat → ListingRaw) : Nat → Nat → (List BillingAccount ⊕ String) × Nat
  | k, 0 => (Sum.inr sentinel, k)
  | k, fuel + 1 =>
    let accounts_result := get (listings k)
    match accounts_result with
    | .inl l => (.inl l, k + 1)
    | .inr s =>
      if s = sentinel then apiRetryLoop get sentinel listings (k + 1) fuel
      else (.inr s, k + 1)

/-- The credit-propagation wait loop shared by both mains (day one lines
296-303, day two lines 334-341): up to `fuel` further listing attempts,
breaking only on a non-empty list; every attempt overwrites the running
result. -/
def emptyWaitLoop (get : ListingRaw → List BillingAccount ⊕ String)
    (listings : Nat → ListingRaw) :
    Nat → Nat → (List BillingAccount ⊕ String) → (List BillingAccount ⊕ String) × Nat
  | k, 0, current => (current, k)
  | k, fuel + 1, _ =>
    let r := get (listings k)
    match r with
    | .inl l =>
      if l.isEmpty then emptyWaitLoop get listings (k + 1) fuel (.inl l)
      else (.inl l, k + 1)
    | .inr s => emptyWaitLoop get listings (k + 1) fuel (.inr s)

/-- The delay schedule of the day-one API-propagation retry loop (lines
278-289): `wait_seconds` starts at the given value and is multiplied by `1.5`
after each attempt.  The Python values are floats, but all of them are small
dyadic rationals on which float arithmetic is exact, so `ℚ` is a faithful
carrier. -/
def dayOneApiDelays : Nat → ℚ → List ℚ
  | 0, _ => []
  | n + 1, wait_seconds => wait_seconds :: dayOneApiDelays n (wait_seconds * 1.5)

/-- The delay schedule of the day-two API-propagation retry loop (lines
318-327): `wait_seconds = int(wait_seconds * 1.5)` after each attempt.  For a
natural `w`, `w * 1.5` is the exact dyadic float `3w/2` and `int` truncates
towards zero, so the update is `w * 3 / 2` in natural division. -/
def dayTwoApiDelays : Nat → Nat → List Nat
  | 0, _ => []
  | n + 1, wait_seconds => wait_seconds :: dayTwoApiDelays n (wait_seconds * 3 / 2)

/-- Environment of one run of the day-two `main`: the project-id file
content, the `check_current_billing` lookup, the stream of listing outcomes
(indexed by call number), the `enable_billing_api` outcome, the
linked-project-count oracle used by the selector, the per-invocation linker
oracles (invocation 0 is the automatic attempt, 1 the manual fallback), and
the manual choice.  The manual-selection `while True` loop accepts only an
in-range 1-based number, so a terminating run is characterised by the
accepted index; `manualIdx` is reduced modulo the list length to range over
exactly those. -/
structure DayTwoEnv where
  projectFile : Option String
  billingLookup : BillingLookup
  listings : Nat → ListingRaw
  enableOk : Bool
  client : Client
  linkEnvs : Nat → LinkEnv
  manualIdx : Nat

/-- The final dispatch of the day-two `main` (lines 343-432) on the settled
listing result.  First component: the value `main` returns (the process exit
code, via `sys.exit(main())`); second component: whether
`update_project_billing_info` was ever called. -/
def daytwoFinal (env : DayTwoEnv) (project_id : String) :
    (List BillingAccount ⊕ String) → Nat × Bool
  | .inl accounts =>
    if accounts.isEmpty then (1, false)
    else
      let open_accounts := accounts.filter (fun acc => acc.isOpen)
      if open_accounts.isEmpty then (1, false)
      else if open_accounts.length == 1 then
        match open_accounts.head? with
        | some account =>
          let (ok, upd) := link_billing_account (env.linkEnvs 0) project_id account
          (if ok then 0 else 1, upd)
        | none => (1, false)
      else
        match find_best_billing_account env.client open_accounts with
        | some account =>
          let (ok, upd) := link_billing_account (env.linkEnvs 0) project_id account
          if ok then (0, upd)
          else
            match open_accounts[env.manualIdx % open_accounts.length]? with
            | some manual_account =>
              let (ok2, upd2) := link_billing_account (env.linkEnvs 1) project_id manual_account
              (if ok2 then 0 else 1, upd || upd2)
            | none => (1, upd)
        | none => (1, false)
  | .inr _ => (1, false)

/-- The listing phase of the day-two `main` (lines 309-341): initial listing,
on the propagating sentinel enable the API (`none` models the `return 1` when
that fails) and retry up to 5 times, then on an empty successful listing wait
up to 6 more times.  Returns the settled `accounts_result`. -/
def daytwoSettle (env : DayTwoEnv) : Option (List BillingAccount ⊕ String) :=
  let accounts_result := get_billing_accounts_daytwo (env.listings 0)
  let afterEnable : Option ((List BillingAccount ⊕ String) × Nat) :=
    if accounts_result = Sum.inr "API_DISABLED_OR_PROPAGATING" then
      if env.enableOk then
        some (apiRetryLoop get_billing_accounts_daytwo "API_DISABLED_OR_PROPAGATING"
          env.listings 1 5)
      else none
    else some (accounts_result, 1)
  match afterEnable with
  | none => none
  | some (r1, k1) =>
    some (match r1 with
      | .inl l =>
        if l.isEmpty then (emptyWaitLoop get_billing_accounts_daytwo env.listings k1 6 (.inl l)).1
        else r1
      | .inr s => .inr s)

/-- `main` of the day-two script (lines 290-432), as exit code paired with
whether `update_project_billing_info` was ever called.  The flow: resolve the
project id (`sys.exit(1)` inside `get_project_id` on failure), return `0` if
billing is already enabled, settle the listing (`none` = enabling the API
failed, `return 1`), then dispatch on the final result. -/
def daytwoMain (env : DayTwoEnv) : Nat × Bool :=
  match get_project_id env.projectFile with
  | none => (1, false)
  | some project_id =>
    match check_current_billing env.billingLookup with
    | (true, _) => (0, false)
    | (false, _) =>
      match daytwoSettle env with
      | none => (1, false)
      | some settled => daytwoFinal env project_id settled

/-- How the day-one manual-override prompt (lines 361-380) resolves: empty
input, non-numeric input or EOF fall into the `except (ValueError, EOFError)`
arm (`noChoice`); a parsed number out of range prints a notice and keeps the
auto-selection (`invalid`); an in-range number selects that account
(`selected`, 0-based, reduced modulo the list length). -/
inductive ChoiceOutcome where
  | noChoice
  | invalid
  | selected (idx : Nat)
deriving DecidableEq

/-- How a run of the day-one script ends: falling off the end of the
`__main__` block with the given process exit code, or crashing on an uncaught
exception. -/
inductive ExitResult where
  | normal (code : Nat)
  | crashed
deriving DecidableEq

/-- Environment of one run of the day-one `__main__` block, mirroring
`DayTwoEnv`; `choice` resolves the always-offered manual override. -/
structure DayOneEnv where
  projectFile : Option String
  listings : Nat → ListingRaw
  enableOk : Bool
  client : Client
  linkEnvs : Nat → LinkEnv
  choice : ChoiceOutcome

/-- The listing phase of the day-one `__main__` block (lines 273-303):
initial listing, on the sentinel enable the API and retry up to 5 times —
when enabling fails the day-one script does *not* exit, the sentinel simply
stays put — then on an empty successful listing wait up to 6 more times. -/
def dayoneSettle (env : DayOneEnv) : List BillingAccount ⊕ String :=
  let accounts_result := get_billing_accounts_dayone (env.listings 0)
  let (r1, k1) :=
    if accounts_result = Sum.inr "API_DISABLED_OR_NO_PERMISSION" then
      if env.enableOk then
        apiRetryLoop get_billing_accounts_dayone "API_DISABLED_OR_NO_PERMISSION"
          env.listings 1 5
      else (accounts_result, 1)
    else (accounts_result, 1)
  match r1 with
  | .inl l =>
    if l.isEmpty then (emptyWaitLoop get_billing_accounts_dayone env.listings k1 6 (.inl l)).1
    else r1
  | .inr s => Sum.inr s

/-- The `__main__` block of the day-one script (lines 261-392).  The block
contains no `sys.exit` call: every path that does not raise an uncaught
exception falls off the end of the script, i.e. exits with code `0` — the
failure branches only print messages.  The only uncaught exception within the
modelled oracles is `link_project_to_billing`'s initial billing lookup
raising something other than `NotFound`. -/
def dayoneMain (env : DayOneEnv) : ExitResult :=
  match get_project_id env.projectFile with
  | none => .normal 0
  | some project_id =>
    match dayoneSettle env with
    | .inl accounts =>
      if accounts.isEmpty then .normal 0
      else
        let open_accounts := accounts.filter (fun acc => acc.isOpen)
        if open_accounts.isEmpty then .normal 0
        else if open_accounts.length == 1 then
          match open_accounts.head? with
          | some target_account =>
            if (link_project_to_billing (env.linkEnvs 0) project_id target_account).1 =
                .raised then .crashed
            else .normal 0
          | none => .normal 0
        else
          match find_best_billing_account env.client open_accounts with
          | some target_account =>
            if (link_project_to_billing (env.linkEnvs 0) project_id target_account).1 =
                .raised then .crashed
            else
              match env.choice with
              | .noChoice => .normal 0
              | .invalid => .normal 0
              | .selected idx =>
                match open_accounts[idx % open_accounts.length]? with
                | some manual_account =>
                  if (link_project_to_billing (env.linkEnvs 1) project_id manual_account).1 =
                      .raised then .crashed
                  else .normal 0
                | none => .normal 0
          | none => .normal 0
    | .inr _ => .normal 0

/-! ## Theorems -/

lemma countLoop_zero (l : List Unit) : countLoop l 0 = if l.isEmpty then 0 else 1 := by
  cases l with
  | nil => simp [countLoop]
  | cons x rest => simp [countLoop]

lemma find_best_unlinked_branch (client : Client) (accounts : List BillingAccount)
    (h : accounts.filter
        (fun account => get_linked_project_count client account == 0) ≠ []) :
    find_best_billing_account client accounts =
      (List.insertionSort trialOrder
        (accounts.filter (fun account => get_linked_project_count client account == 0))).head? := by
  simp only [find_best_billing_account]
  rw [if_pos h]

lemma find_best_tagged_branch (client : Client) (accounts : List BillingAccount)
    (h0 : accounts.filter
        (fun account => get_linked_project_count client account == 0) = [])
    (ht : accounts.filterMap
        (fun account => (suffixSearch account.display_name.data).map (fun m => (account, m)))
        ≠ []) :
    find_best_billing_account client accounts =
      ((List.insertionSort tagOrder
        (accounts.filterMap
          (fun account =>
            (suffixSearch account.display_name.data).map (fun m => (account, m))))).head?).map
        Prod.fst := by
  simp only [find_best_billing_account]
  rw [if_neg (by simp [h0]), if_pos ht]

lemma bool_le_true {a b : Bool} (h : a ≤ b) (ha : a = true) : b = true := by
  cases b
  · rw [ha] at h; exact absurd h (by decide)
  · rfl

/-- Claim C1: on a list of open accounts containing at least one account with
a linked-project count of exactly zero, `find_best_billing_account` returns a
zero-linked account (in particular never a linked one and never one whose
count lookup failed with `-1`), and whenever some zero-linked account has
"trial billing account" in its lower-cased display name, so does the returned
account. -/
theorem selector_zero_linked_priority (client : Client) (accounts : List BillingAccount)
    (hne : accounts ≠ [])
    (hzero : ∃ a ∈ accounts, get_linked_project_count client a = 0) :
    ∃ b, find_best_billing_account client accounts = some b ∧ b ∈ accounts ∧
      get_linked_project_count client b = 0 ∧
      ((∃ a ∈ accounts, get_linked_project_count client a = 0 ∧ hasTrialName a = true) →
        hasTrialName b = true) := by
  obtain ⟨a0, ha0, ha0z⟩ := hzero
  have ha0u : a0 ∈ accounts.filter
      (fun account => get_linked_project_count client account == 0) :=
    List.mem_filter.2 ⟨ha0, by simp [ha0z]⟩
  have hperm := List.perm_insertionSort trialOrder
    (accounts.filter (fun account => get_linked_project_count client account == 0))
  have hsorted := List.sorted_insertionSort trialOrder
    (accounts.filter (fun account => get_linked_project_count client account == 0))
  have hmem0 : a0 ∈ List.insertionSort trialOrder
      (accounts.filter (fun account => get_linked_project_count client account == 0)) :=
    hperm.mem_iff.2 ha0u
  obtain ⟨b, rest, hbr⟩ := List.exists_cons_of_ne_nil (List.ne_nil_of_mem hmem0)
  have hfb := find_best_unlinked_branch client accounts (List.ne_nil_of_mem ha0u)
  refine ⟨b, ?_, ?_, ?_, ?_⟩
  · rw [hfb, hbr]; rfl
  · have hbmem : b ∈ accounts.filter
        (fun account => get_linked_project_count client account == 0) :=
      hperm.mem_iff.1 (by rw [hbr]; exact List.mem_cons_self b rest)
    exact (List.mem_filter.1 hbmem).1
  · have hbmem : b ∈ accounts.filter
        (fun account => get_linked_project_count client account == 0) :=
      hperm.mem_iff.1 (by rw [hbr]; exact List.mem_cons_self b rest)
    have := (List.mem_filter.1 hbmem).2
    simpa using this
  · rintro ⟨a, ha, haz, hat⟩
    have hau : a ∈ List.insertionSort trialOrder
        (accounts.filter (fun account => get_linked_project_count client account == 0)) :=
      hperm.mem_iff.2 (List.mem_filter.2 ⟨ha, by simp [haz]⟩)
    rw [hbr] at hau hsorted
    rcases List.mem_cons.1 hau with rfl | hau
    · exact hat
    · have := (List.sorted_cons.1 hsorted).1 a hau
      exact bool_le_true this hat

/-- Claim C2: on a list of open accounts with no zero-linked account but at
least one whose display name matches the `-\d{12}$` suffix pattern,
`find_best_billing_account` returns an account whose matched suffix is
maximal under lexicographic comparison among all matched suffixes. -/
theorem selector_newest_tagged (client : Client) (accounts : List BillingAccount)
    (hne : accounts ≠ [])
    (hnozero : ∀ a ∈ accounts, get_linked_project_count client a ≠ 0)
    (htag : ∃ a ∈ accounts, (suffixSearch a.display_name.data).isSome) :
    ∃ b m, find_best_billing_account client accounts = some b ∧ b ∈ accounts ∧
      suffixSearch b.display_name.data = some m ∧
      ∀ a ∈ accounts, ∀ m', suffixSearch a.display_name.data = some m' → m' ≤ m := by
  obtain ⟨a0, ha0, ha0s⟩ := htag
  obtain ⟨m0, hm0⟩ := Option.isSome_iff_exists.1 ha0s
  have hfilter : accounts.filter
      (fun account => get_linked_project_count client account == 0) = [] := by
    rw [List.filter_eq_nil_iff]
    intro a ha
    simpa using hnozero a ha
  have htag0 : (a0, m0) ∈ accounts.filterMap
      (fun account => (suffixSearch account.display_name.data).map (fun m => (account, m))) := by
    rw [List.mem_filterMap]
    exact ⟨a0, ha0, by rw [hm0]; rfl⟩
  have hperm := List.perm_insertionSort tagOrder
    (accounts.filterMap
      (fun account => (suffixSearch account.display_name.data).map (fun m => (account, m))))
  have hsorted := List.sorted_insertionSort tagOrder
    (accounts.filterMap
      (fun account => (suffixSearch account.display_name.data).map (fun m => (account, m))))
  have hmem0 := hperm.mem_iff.2 htag0
  obtain ⟨bm, rest, hbr⟩ := List.exists_cons_of_ne_nil (List.ne_nil_of_mem hmem0)
  have hbmem := hperm.mem_iff.1 (by rw [hbr]; exact List.mem_cons_self bm rest)
  obtain ⟨ab, hab, habeq⟩ := List.mem_filterMap.1 hbmem
  obtain ⟨mb, hmb, hmbe⟩ := Option.map_eq_some'.1 habeq
  have hfb : find_best_billing_account client accounts = some bm.1 := by
    rw [find_best_tagged_branch client accounts hfilter (List.ne_nil_of_mem htag0), hbr]
    rfl
  refine ⟨bm.1, bm.2, hfb, ?_, ?_, ?_⟩
  · have : ab = bm.1 := congrArg Prod.fst hmbe
    rw [← this]; exact hab
  · have h1 : ab = bm.1 := congrArg Prod.fst hmbe
    have h2 : mb = bm.2 := congrArg Prod.snd hmbe
    rw [← h1, ← h2]; exact hmb
  · intro a ha m' hm'
    have hamem : (a, m') ∈ accounts.filterMap
        (fun account => (suffixSearch account.display_name.data).map (fun m => (account, m))) := by
      rw [List.mem_filterMap]
      exact ⟨a, ha, by rw [hm']; rfl⟩
    have := hperm.mem_iff.2 hamem
    rw [hbr] at this hsorted
    rcases List.mem_cons.1 this with heq | hmemr
    · have h2 : m' = bm.2 := congrArg Prod.snd heq
      exact h2.le
    · exact (List.sorted_cons.1 hsorted).1 (a, m') hmemr


/-! ## Concrete run data used by witnesses and counterexamples -/

/-- An open account linked to two projects. -/
def wCorpAcct : BillingAccount := ⟨"billingAccounts/A", "Corp account", true⟩

/-- An open, zero-linked account with a trial display name. -/
def wTrialAcct : BillingAccount := ⟨"billingAccounts/B", "Free Trial Billing Account", true⟩

/-- An open, zero-linked account without a trial display name. -/
def wOtherAcct : BillingAccount := ⟨"billingAccounts/C", "Other", true⟩

/-- Client on which account `A` has linked projects and every other account
has none. -/
def wClient : Client :=
  ⟨fun n => if n = "billingAccounts/A" then some [(), ()] else some []⟩

/-- Client on which every account has exactly one linked project. -/
def wLinkedClient : Client := ⟨fun _ => some [()]⟩

/-- A tagged account with an older suffix. -/
def wTagX : BillingAccount := ⟨"billingAccounts/X", "X-202501010000", true⟩

/-- A tagged account with a newer suffix. -/
def wTagY : BillingAccount := ⟨"billingAccounts/Y", "X-202602020000", true⟩

/-- Billing info reporting account `A` linked and enabled. -/
def wInfoA : ProjectBillingInfo := ⟨"billingAccounts/A", true⟩

/-- Linker oracles for a project already linked and enabled to account `A`. -/
def wLinkEnvA : LinkEnv := ⟨.found wInfoA, .ok, fun _ => some wInfoA⟩

/-- Linker oracles where the update succeeds but every verification lookup
raises. -/
def wLinkEnvSlow : LinkEnv := ⟨.notFound, .ok, fun _ => none⟩

/-- Claim C1 witness. -/
theorem selector_zero_linked_priority_witness :
    ∃ b, find_best_billing_account wClient [wCorpAcct, wOtherAcct, wTrialAcct] = some b ∧
      b ∈ [wCorpAcct, wOtherAcct, wTrialAcct] ∧
      get_linked_project_count wClient b = 0 ∧
      ((∃ a ∈ [wCorpAcct, wOtherAcct, wTrialAcct],
          get_linked_project_count wClient a = 0 ∧ hasTrialName a = true) →
        hasTrialName b = true) :=
  selector_zero_linked_priority wClient [wCorpAcct, wOtherAcct, wTrialAcct]
    (by decide) (by decide)

/-- Claim C2 witness. -/
theorem selector_newest_tagged_witness :
    ∃ b m, find_best_billing_account wLinkedClient [wTagX, wTagY] = some b ∧
      b ∈ [wTagX, wTagY] ∧
      suffixSearch b.display_name.data = some m ∧
      ∀ a ∈ [wTagX, wTagY], ∀ m', suffixSearch a.display_name.data = some m' → m' ≤ m :=
  selector_newest_tagged wLinkedClient [wTagX, wTagY] (by decide) (by decide) (by decide)

/-- Claim C9: `get_linked_project_count` only ever returns `-1`, `0` or `1`,
and in particular never the true count of a billing account with two or more
linked projects. -/
theorem linked_count_sentinel (client : Client) (billing_account : BillingAccount) :
    (get_linked_project_count client billing_account = -1 ∨
     get_linked_project_count client billing_account = 0 ∨
     get_linked_project_count client billing_account = 1) ∧
    (∀ projects, client.listProjectBillingInfo billing_account.name = some projects →
      2 ≤ projects.length →
      get_linked_project_count client billing_account ≠ (projects.length : Int)) := by
  constructor
  · rcases h : client.listProjectBillingInfo billing_account.name with _ | projects
    · exact Or.inl (by simp [get_linked_project_count, h])
    · simp only [get_linked_project_count, h, countLoop_zero]
      by_cases hp : projects.isEmpty <;> simp [hp]
  · intro projects hp hlen
    simp only [get_linked_project_count, hp, countLoop_zero]
    have hne : projects.isEmpty = false := by
      cases projects
      · simp at hlen
      · simp
    rw [hne]
    simp only [Bool.false_eq_true, if_false]
    omega

/-- Claim C9 witness. -/
theorem linked_count_sentinel_witness :
    (get_linked_project_count wClient wCorpAcct = -1 ∨
     get_linked_project_count wClient wCorpAcct = 0 ∨
     get_linked_project_count wClient wCorpAcct = 1) ∧
    get_linked_project_count wClient wCorpAcct ≠ (2 : Int) :=
  ⟨(linked_count_sentinel wClient wCorpAcct).1,
   (linked_count_sentinel wClient wCorpAcct).2 [(), ()] (by decide) (by decide)⟩

lemma digitChar10_isDigit (n : Nat) : (digitChar10 n).isDigit = true := by
  unfold digitChar10
  have h : n % 10 < 10 := Nat.mod_lt _ (by norm_num)
  revert h
  generalize n % 10 = k
  intro h
  interval_cases k <;> decide

lemma strftimeSuffix_shape (y mo d h mi : Nat) :
    ∃ ds, strftimeSuffix y mo d h mi = '-' :: ds ∧ ds.length = 12 ∧
      ds.all Char.isDigit = true := by
  refine ⟨_, rfl, by simp [pad4, pad2], ?_⟩
  simp [pad4, pad2, digitChar10_isDigit]

lemma suffixSearch_append_tag (d ds : List Char) (h12 : ds.length = 12)
    (hdig : ds.all Char.isDigit = true) :
    suffixSearch (d ++ '-' :: ds) = some ('-' :: ds) := by
  have hlen : (d ++ '-' :: ds).length = d.length + 13 := by simp [h12]
  have hdrop : (d ++ '-' :: ds).drop ((d ++ '-' :: ds).length - 13) = '-' :: ds := by
    rw [hlen]
    have h13 : d.length + 13 - 13 = d.length := by omega
    rw [h13]
    exact List.drop_left d ('-' :: ds)
  simp only [suffixSearch]
  rw [hdrop]
  simp [h12, hdig]

/-- Claim C8: tagging is idempotent — for any display name, applying
`tag_billing_account` twice (each call with some formatted timestamp) yields
the same display name as applying it once, because a display name already
ending in the 12-digit suffix pattern makes the second call a no-op. -/
theorem tagger_idempotent (display_name : List Char) (s₁ s₂ : List Char)
    (h1 : ∃ y mo d h mi, s₁ = strftimeSuffix y mo d h mi)
    (h2 : ∃ y mo d h mi, s₂ = strftimeSuffix y mo d h mi) :
    tag_billing_account s₂ (tag_billing_account s₁ display_name) =
      tag_billing_account s₁ display_name := by
  obtain ⟨y1, mo1, d1, hh1, mi1, rfl⟩ := h1
  obtain ⟨ds1, hds1, hl1, hd1⟩ := strftimeSuffix_shape y1 mo1 d1 hh1 mi1
  by_cases hc : (suffixSearch display_name).isSome = true
  · simp [tag_billing_account, hc]
  · have happ : suffixSearch (display_name ++ strftimeSuffix y1 mo1 d1 hh1 mi1) =
        some ('-' :: ds1) := by
      rw [hds1]
      exact suffixSearch_append_tag display_name ds1 hl1 hd1
    simp [tag_billing_account, hc, happ]

/-- Claim C8 witness. -/
theorem tagger_idempotent_witness :
    tag_billing_account (strftimeSuffix 2026 2 18 15 31)
        (tag_billing_account (strftimeSuffix 2026 2 18 15 30) "My Billing".data) =
      tag_billing_account (strftimeSuffix 2026 2 18 15 30) "My Billing".data :=
  tagger_idempotent "My Billing".data _ _
    ⟨2026, 2, 18, 15, 30, rfl⟩ ⟨2026, 2, 18, 15, 31, rfl⟩

/-- Whether one verification lookup confirms the link: the looked-up info
names the target account and reports billing enabled (a raising lookup
confirms nothing). -/
def verifyConfirms (r : Option ProjectBillingInfo) (billing_account_name : String) : Bool :=
  match r with
  | some info => info.billing_account_name == billing_account_name && info.billing_enabled
  | none => false

lemma verifyLoop_eq_false (verify : Nat → Option ProjectBillingInfo)
    (billing_account_name : String) :
    ∀ fuel i, (∀ j, j < fuel → verifyConfirms (verify (i + j)) billing_account_name = false) →
      verifyLoop verify billing_account_name i fuel = false := by
  intro fuel
  induction fuel with
  | zero => intro i _; rfl
  | succ n ih =>
    intro i h
    have h0 := h 0 (by omega)
    simp only [Nat.add_zero] at h0
    have hrec : verifyLoop verify billing_account_name (i + 1) n = false := by
      apply ih
      intro j hj
      have := h (j + 1) (by omega)
      have harith : i + (j + 1) = i + 1 + j := by omega
      rwa [harith] at this
    unfold verifyLoop
    rcases hv : verify i with _ | info
    · exact hrec
    · rw [hv] at h0
      simp only [verifyConfirms] at h0
      simp [h0, hrec]

/-- Condition under which `link_project_to_billing` reaches the update call:
a non-empty project id is assumed separately; here, the initial billing
lookup neither reported the target account already linked nor raised an
uncaught exception. -/
def reachesUpdate (env : LinkEnv) (billing_account_info : BillingAccount) : Prop :=
  match env.getProjectBillingInfo with
  | .found info => info.billing_account_name ≠ billing_account_info.name
  | .notFound => True
  | .otherError => False

/-- Claim C4: when the update call succeeds but none of the 6 verification
attempts confirms the link, the day-two `link_billing_account` still returns
`True`, and the day-one `link_project_to_billing` ends on its non-fatal
warning path — in neither variant does verification exhaustion turn a
successful update into a hard failure. -/
theorem verification_exhaustion_nonfatal (env : LinkEnv) (project_id : String)
    (billing_account : BillingAccount)
    (hupd : env.update = .ok)
    (hver : ∀ i, i < 6 → verifyConfirms (env.verify i) billing_account.name = false) :
    link_billing_account env project_id billing_account = (true, true) ∧
    (project_id ≠ "" → reachesUpdate env billing_account →
      link_project_to_billing env project_id billing_account = (.unverifiedWarning, true)) := by
  have hloop : verifyLoop env.verify billing_account.name 0 6 = false :=
    verifyLoop_eq_false env.verify billing_account.name 6 0
      (fun j hj => by simpa using hver j hj)
  constructor
  · unfold link_billing_account
    rw [hupd, hloop]
    simp
  · intro hpid hreach
    unfold link_project_to_billing
    rw [if_neg hpid]
    rcases hlook : env.getProjectBillingInfo with info | _ | _
    · unfold reachesUpdate at hreach
      rw [hlook] at hreach
      have hbeq : (info.billing_account_name == billing_account.name) = false := by
        simpa using hreach
      simp [hlook, hbeq, hupd, hloop]
    · simp [hlook, hupd, hloop]
    · unfold reachesUpdate at hreach
      rw [hlook] at hreach
      exact absurd hreach (by simp)

/-- Claim C4 witness. -/
theorem verification_exhaustion_nonfatal_witness :
    link_billing_account wLinkEnvSlow "proj-1" wCorpAcct = (true, true) ∧
    link_project_to_billing wLinkEnvSlow "proj-1" wCorpAcct = (.unverifiedWarning, true) := by
  have h := verification_exhaustion_nonfatal wLinkEnvSlow "proj-1" wCorpAcct rfl
    (fun i _ => rfl)
  exact ⟨h.1, h.2 (by decide) trivial⟩

/-- Day-two environment for a project whose billing is already enabled on
account `A`. -/
def wEnvEnabled : DayTwoEnv :=
  { projectFile := some "proj-1"
    billingLookup := .found wInfoA
    listings := fun _ => .otherError
    enableOk := false
    client := wClient
    linkEnvs := fun _ => wLinkEnvA
    manualIdx := 0 }

/-- Claim C3 counterexample: a project whose current billing info already
reports the target account as linked and enabled, on which the day-two
`link_billing_account` nevertheless issues the update call (second component
`true`) — the claim's "without issuing an update call … in both variants" is
false for the day-two variant, which has no already-linked short-circuit. -/
theorem link_noop_counterexample :
    wLinkEnvA.getProjectBillingInfo = .found wInfoA ∧
    wInfoA.billing_account_name = wCorpAcct.name ∧
    wInfoA.billing_enabled = true ∧
    link_billing_account wLinkEnvA "proj-1" wCorpAcct = (true, true) := by
  refine ⟨rfl, rfl, rfl, ?_⟩
  decide

/-- Claim C3 as amended: the day-one `link_project_to_billing` returns
success without the update call when the current billing info already names
the target account; the day-two `link_billing_account` always issues the
update call, and the day-two no-op lives one level up — when
`check_current_billing` reports billing enabled, `main` returns `0` without
ever calling the linker, so no update call is issued. -/
theorem link_noop_amended :
    (∀ (env : LinkEnv) (project_id : String) (billing_account : BillingAccount)
        (info : ProjectBillingInfo),
      project_id ≠ "" →
      env.getProjectBillingInfo = .found info →
      info.billing_account_name = billing_account.name →
      link_project_to_billing env project_id billing_account = (.alreadyLinked, false)) ∧
    (∀ (env : LinkEnv) (project_id : String) (billing_account : BillingAccount),
      (link_billing_account env project_id billing_account).2 = true) ∧
    (∀ (env : DayTwoEnv) (project_id : String) (info : ProjectBillingInfo),
      get_project_id env.projectFile = some project_id →
      env.billingLookup = .found info →
      info.billing_enabled = true →
      daytwoMain env = (0, false)) := by
  refine ⟨?_, ?_, ?_⟩
  · intro env project_id billing_account info hpid hlook hname
    unfold link_project_to_billing
    rw [if_neg hpid]
    simp [hlook, hname]
  · intro env project_id billing_account
    unfold link_billing_account
    cases env.update <;> simp
  · intro env project_id info hpid hlook henabled
    unfold daytwoMain
    rw [hpid]
    simp [check_current_billing, hlook, henabled]

/-- Claim C3 witness (for the amended claim). -/
theorem link_noop_amended_witness :
    link_project_to_billing wLinkEnvA "proj-1" wCorpAcct = (.alreadyLinked, false) ∧
    (link_billing_account wLinkEnvA "proj-1" wCorpAcct).2 = true ∧
    daytwoMain wEnvEnabled = (0, false) :=
  ⟨link_noop_amended.1 wLinkEnvA "proj-1" wCorpAcct wInfoA (by decide) rfl rfl,
   link_noop_amended.2.1 wLinkEnvA "proj-1" wCorpAcct,
   link_noop_amended.2.2 wEnvEnabled "proj-1" wInfoA (by decide) rfl rfl⟩

lemma prod_fst_false {p : Bool × Option String} (h : p.1 = false) :
    p = (false, p.2) := by rw [← h]

lemma daytwoMain_ready (env : DayTwoEnv) (project_id : String)
    (hpid : get_project_id env.projectFile = some project_id)
    (hch : (check_current_billing env.billingLookup).1 = false) :
    daytwoMain env =
      match daytwoSettle env with
      | none => (1, false)
      | some settled => daytwoFinal env project_id settled := by
  unfold daytwoMain
  rw [hpid, prod_fst_false hch]

lemma daytwoSettle_retry_ok (env : DayTwoEnv) (message : String)
    (accounts : List BillingAccount)
    (h0 : env.listings 0 = .permDenied message) (hm : looksApiDisabled message = true)
    (he : env.enableOk = true) (h1 : env.listings 1 = .ok accounts)
    (hne : accounts ≠ []) :
    daytwoSettle env = some (.inl accounts) := by
  have hemp : accounts.isEmpty = false := by
    rcases accounts with _ | _
    · exact absurd rfl hne
    · rfl
  unfold daytwoSettle
  rw [h0]
  simp only [get_billing_accounts_daytwo, hm, if_true]
  rw [he, if_pos rfl]
  simp only [if_true]
  unfold apiRetryLoop
  rw [h1]
  simp only [get_billing_accounts_daytwo, hemp, Bool.false_eq_true, if_false]

/-- Claim C5: a `PermissionDenied` from the billing-account listing is
classified by substring matching on the lower-cased message — when it
contains "api has not been used" or "service is disabled" both scripts return
their propagating-API sentinel, otherwise the permission-denied sentinel; any
other exception yields the unexpected-error sentinel.  On the propagating
sentinel the day-two main schedules the enable-and-retry path rather than
failing terminally: with the API enabled and the first retry listing
succeeding, the run proceeds into the normal account dispatch. -/
theorem listing_error_classification :
    (∀ message, looksApiDisabled message = true →
      get_billing_accounts_dayone (.permDenied message) =
          Sum.inr "API_DISABLED_OR_NO_PERMISSION" ∧
      get_billing_accounts_daytwo (.permDenied message) =
          Sum.inr "API_DISABLED_OR_PROPAGATING") ∧
    (∀ message, looksApiDisabled message = false →
      get_billing_accounts_dayone (.permDenied message) = Sum.inr "PERMISSION_DENIED" ∧
      get_billing_accounts_daytwo (.permDenied message) = Sum.inr "PERMISSION_DENIED") ∧
    (get_billing_accounts_dayone .otherError = Sum.inr "UNEXPECTED_ERROR" ∧
      get_billing_accounts_daytwo .otherError = Sum.inr "UNEXPECTED_ERROR") ∧
    (∀ (env : DayTwoEnv) (project_id message : String) (accounts : List BillingAccount),
      get_project_id env.projectFile = some project_id →
      (check_current_billing env.billingLookup).1 = false →
      env.listings 0 = .permDenied message → looksApiDisabled message = true →
      env.enableOk = true → env.listings 1 = .ok accounts → accounts ≠ [] →
      daytwoMain env = daytwoFinal env project_id (.inl accounts)) := by
  refine ⟨?_, ?_, ⟨rfl, rfl⟩, ?_⟩
  · intro message hm
    constructor <;> simp [get_billing_accounts_dayone, get_billing_accounts_daytwo, hm]
  · intro message hm
    constructor <;> simp [get_billing_accounts_dayone, get_billing_accounts_daytwo, hm]
  · intro env project_id message accounts hpid hch h0 hm he h1 hne
    rw [daytwoMain_ready env project_id hpid hch,
      daytwoSettle_retry_ok env message accounts h0 hm he h1 hne]

/-- Day-two environment in which the first listing hits a propagating-API
permission error and the first retry after enabling the API succeeds. -/
def wEnvSched : DayTwoEnv :=
  { projectFile := some "proj-1"
    billingLookup := .notFound
    listings := fun k =>
      if k = 0 then .permDenied "Cloud Billing API service is disabled" else .ok [wTrialAcct]
    enableOk := true
    client := wClient
    linkEnvs := fun _ => wLinkEnvA
    manualIdx := 0 }

/-- Claim C5 witness. -/
theorem listing_error_classification_witness :
    (get_billing_accounts_dayone (.permDenied "Cloud Billing API service is disabled") =
        Sum.inr "API_DISABLED_OR_NO_PERMISSION" ∧
      get_billing_accounts_daytwo (.permDenied "Cloud Billing API service is disabled") =
        Sum.inr "API_DISABLED_OR_PROPAGATING") ∧
    (get_billing_accounts_dayone (.permDenied "The caller does not have permission") =
        Sum.inr "PERMISSION_DENIED" ∧
      get_billing_accounts_daytwo (.permDenied "The caller does not have permission") =
        Sum.inr "PERMISSION_DENIED") ∧
    daytwoMain wEnvSched = daytwoFinal wEnvSched "proj-1" (.inl [wTrialAcct]) :=
  ⟨listing_error_classification.1 "Cloud Billing API service is disabled" (by decide),
   listing_error_classification.2.1 "The caller does not have permission" (by decide),
   listing_error_classification.2.2.2 wEnvSched "proj-1"
     "Cloud Billing API service is disabled" [wTrialAcct]
     (by decide) rfl rfl (by decide) rfl (by decide) (by decide)⟩

/-- Claim C6 counterexample: the day-two retry delays are *not* the claimed
sequence `15, 22.5, 33.75, 50.625, 75.9375` — the day-two script truncates
`wait_seconds = int(wait_seconds * 1.5)` to an integer at every step. -/
theorem backoff_schedule_counterexample :
    ¬ ((dayTwoApiDelays 5 15).map (fun n => (n : ℚ)) =
        [15, 22.5, 33.75, 50.625, 75.9375]) := by
  have h : dayTwoApiDelays 5 15 = [15, 22, 33, 49, 73] := by decide
  rw [h]
  intro hc
  have h2 : (22 : ℚ) = 22.5 := by
    have := congrArg (fun l => l.get? 1) hc
    simpa using this
  norm_num at h2

/-- Claim C6 as amended: after requesting the billing API be enabled, both
variants retry the listing up to 5 times starting from a 15-unit delay; the
day-one variant multiplies the delay by 1.5 exactly (15, 22.5, 33.75, 50.625,
75.9375), while the day-two variant truncates the product to an integer after
each step, giving 15, 22, 33, 49, 73. -/
theorem backoff_schedule_amended :
    dayOneApiDelays 5 15 = [15, 22.5, 33.75, 50.625, 75.9375] ∧
    dayTwoApiDelays 5 15 = [15, 22, 33, 49, 73] :=
  ⟨by norm_num [dayOneApiDelays], by decide⟩

lemma link_billing_account_update_ok (env : LinkEnv) (project_id : String)
    (billing_account : BillingAccount) (h : env.update = .ok) :
    link_billing_account env project_id billing_account = (true, true) := by
  unfold link_billing_account
  rw [h]
  simp

lemma apiRetryLoop_all (get : ListingRaw → List BillingAccount ⊕ String) (sentinel : String)
    (listings : Nat → ListingRaw) (h : ∀ k, get (listings k) = Sum.inr sentinel) :
    ∀ fuel k, apiRetryLoop get sentinel listings k fuel = (Sum.inr sentinel, k + fuel) := by
  intro fuel
  induction fuel with
  | zero => intro k; rfl
  | succ n ih =>
    intro k
    unfold apiRetryLoop
    rw [h k]
    simp [ih, Nat.add_comm, Nat.add_assoc, Nat.add_left_comm]

lemma isEmpty_false_of_ne_nil {α : Type} {l : List α} (h : l ≠ []) : l.isEmpty = false := by
  rcases l with _ | _
  · exact absurd rfl h
  · rfl

lemma daytwoSettle_first_ok (env : DayTwoEnv) (accounts : List BillingAccount)
    (h0 : env.listings 0 = .ok accounts) (hne : accounts ≠ []) :
    daytwoSettle env = some (.inl accounts) := by
  unfold daytwoSettle
  rw [h0]
  simp [get_billing_accounts_daytwo, isEmpty_false_of_ne_nil hne]

lemma daytwoSettle_perm (env : DayTwoEnv) (message : String)
    (h0 : env.listings 0 = .permDenied message) (hm : looksApiDisabled message = false) :
    daytwoSettle env = some (Sum.inr "PERMISSION_DENIED") := by
  unfold daytwoSettle
  rw [h0]
  simp [get_billing_accounts_daytwo, hm]

lemma daytwoSettle_unexpected (env : DayTwoEnv) (h0 : env.listings 0 = .otherError) :
    daytwoSettle env = some (Sum.inr "UNEXPECTED_ERROR") := by
  unfold daytwoSettle
  rw [h0]
  simp [get_billing_accounts_daytwo]

lemma daytwoSettle_never_active (env : DayTwoEnv)
    (h : ∀ k, ∃ m, env.listings k = .permDenied m ∧ looksApiDisabled m = true) :
    daytwoSettle env =
      if env.enableOk then some (Sum.inr "API_DISABLED_OR_PROPAGATING") else none := by
  have hget : ∀ k, get_billing_accounts_daytwo (env.listings k) =
      Sum.inr "API_DISABLED_OR_PROPAGATING" := by
    intro k
    obtain ⟨m, hm, hl⟩ := h k
    rw [hm]
    simp [get_billing_accounts_daytwo, hl]
  unfold daytwoSettle
  rw [hget 0]
  cases he : env.enableOk
  · simp
  · simp [apiRetryLoop_all get_billing_accounts_daytwo "API_DISABLED_OR_PROPAGATING"
      env.listings hget 5 1]

lemma daytwoFinal_no_open (env : DayTwoEnv) (project_id : String)
    (accounts : List BillingAccount) (hne : accounts ≠ [])
    (hf : accounts.filter (fun acc => acc.isOpen) = []) :
    daytwoFinal env project_id (.inl accounts) = (1, false) := by
  unfold daytwoFinal
  simp [isEmpty_false_of_ne_nil hne, hf]

lemma daytwoFinal_single_ok (env : DayTwoEnv) (project_id : String)
    (accounts : List BillingAccount) (account : BillingAccount)
    (hf : accounts.filter (fun acc => acc.isOpen) = [account])
    (hupd : (env.linkEnvs 0).update = .ok) :
    daytwoFinal env project_id (.inl accounts) = (0, true) := by
  have hne : accounts ≠ [] := by
    intro h
    rw [h] at hf
    exact absurd hf (by simp)
  unfold daytwoFinal
  simp [isEmpty_false_of_ne_nil hne, hf,
    link_billing_account_update_ok (env.linkEnvs 0) project_id account hupd]

lemma dayoneMain_cases (env : DayOneEnv) :
    dayoneMain env = .crashed ∨ dayoneMain env = .normal 0 := by
  unfold dayoneMain
  repeat' first
  | exact Or.inl rfl
  | exact Or.inr rfl
  | split
  | simp only []

/-- A closed billing account. -/
def wClosedAcct : BillingAccount := ⟨"billingAccounts/D", "Closed account", false⟩

/-- Day-one environment hitting a genuine permission denial on the listing. -/
def wEnvPD : DayOneEnv :=
  { projectFile := some "proj-1"
    listings := fun _ => .permDenied "The caller does not have permission"
    enableOk := false
    client := wClient
    linkEnvs := fun _ => wLinkEnvSlow
    choice := .noChoice }

/-- Day-two environment with a whitespace-only project-id file. -/
def wEnvNoFile : DayTwoEnv :=
  { projectFile := some "  \n "
    billingLookup := .notFound
    listings := fun _ => .otherError
    enableOk := false
    client := wClient
    linkEnvs := fun _ => wLinkEnvSlow
    manualIdx := 0 }

/-- Day-two environment hitting a genuine permission denial on the listing. -/
def wEnvDenied : DayTwoEnv :=
  { projectFile := some "proj-1"
    billingLookup := .notFound
    listings := fun _ => .permDenied "The caller does not have permission"
    enableOk := false
    client := wClient
    linkEnvs := fun _ => wLinkEnvSlow
    manualIdx := 0 }

/-- Day-two environment in which every listing reports the API as still
disabled or propagating. -/
def wEnvNeverActive : DayTwoEnv :=
  { projectFile := some "proj-1"
    billingLookup := .notFound
    listings := fun _ => .permDenied "Cloud Billing API service is disabled"
    enableOk := true
    client := wClient
    linkEnvs := fun _ => wLinkEnvSlow
    manualIdx := 0 }

/-- Day-two environment whose only billing account is closed. -/
def wEnvNoOpen : DayTwoEnv :=
  { projectFile := some "proj-1"
    billingLookup := .notFound
    listings := fun _ => .ok [wClosedAcct]
    enableOk := false
    client := wClient
    linkEnvs := fun _ => wLinkEnvSlow
    manualIdx := 0 }

/-- Day-two environment with one open account and a successful link. -/
def wEnvSuccess : DayTwoEnv :=
  { projectFile := some "proj-1"
    billingLookup := .notFound
    listings := fun _ => .ok [wTrialAcct]
    enableOk := false
    client := wClient
    linkEnvs := fun _ => wLinkEnvSlow
    manualIdx := 0 }

/-- Claim C7 counterexample: a run of the day-one script in which the listing
fails with a genuine permission denial — an unrecoverable condition the claim
says exits with code 1 in both variants — yet the day-one `__main__` block,
which contains no `sys.exit`, falls off the end and the process exits 0. -/
theorem exit_codes_counterexample :
    get_billing_accounts_dayone (wEnvPD.listings 0) = Sum.inr "PERMISSION_DENIED" ∧
    dayoneMain wEnvPD = .normal 0 := by
  constructor
  · decide
  · decide

/-- Claim C7 as amended: the day-two variant exits with code 0 on success or
when billing is already enabled, and 1 on each unrecoverable condition
(missing or empty project id, true permission denial, unexpected error, API
never became active, no open accounts); the day-one variant's `__main__`
block contains no `sys.exit`, so barring a crash on an uncaught exception it
always exits 0, even on unrecoverable conditions. -/
theorem exit_codes_amended :
    (∀ env : DayTwoEnv, get_project_id env.projectFile = none →
      (daytwoMain env).1 = 1) ∧
    (∀ (env : DayTwoEnv) (project_id : String) (info : ProjectBillingInfo),
      get_project_id env.projectFile = some project_id →
      env.billingLookup = .found info → info.billing_enabled = true →
      (daytwoMain env).1 = 0) ∧
    (∀ (env : DayTwoEnv) (project_id message : String),
      get_project_id env.projectFile = some project_id →
      (check_current_billing env.billingLookup).1 = false →
      env.listings 0 = .permDenied message → looksApiDisabled message = false →
      (daytwoMain env).1 = 1) ∧
    (∀ (env : DayTwoEnv) (project_id : String),
      get_project_id env.projectFile = some project_id →
      (check_current_billing env.billingLookup).1 = false →
      env.listings 0 = .otherError →
      (daytwoMain env).1 = 1) ∧
    (∀ (env : DayTwoEnv) (project_id : String),
      get_project_id env.projectFile = some project_id →
      (check_current_billing env.billingLookup).1 = false →
      (∀ k, ∃ m, env.listings k = .permDenied m ∧ looksApiDisabled m = true) →
      (daytwoMain env).1 = 1) ∧
    (∀ (env : DayTwoEnv) (project_id : String) (accounts : List BillingAccount),
      get_project_id env.projectFile = some project_id →
      (check_current_billing env.billingLookup).1 = false →
      env.listings 0 = .ok accounts → accounts ≠ [] →
      accounts.filter (fun acc => acc.isOpen) = [] →
      (daytwoMain env).1 = 1) ∧
    (∀ (env : DayTwoEnv) (project_id : String) (accounts : List BillingAccount)
        (account : BillingAccount),
      get_project_id env.projectFile = some project_id →
      (check_current_billing env.billingLookup).1 = false →
      env.listings 0 = .ok accounts →
      accounts.filter (fun acc => acc.isOpen) = [account] →
      (env.linkEnvs 0).update = .ok →
      (daytwoMain env).1 = 0) ∧
    (∀ env : DayOneEnv, dayoneMain env = .crashed ∨ dayoneMain env = .normal 0) := by
  refine ⟨?_, ?_, ?_, ?_, ?_, ?_, ?_, dayoneMain_cases⟩
  · intro env h
    unfold daytwoMain
    rw [h]
  · intro env project_id info hpid hlook henabled
    unfold daytwoMain
    rw [hpid]
    simp [check_current_billing, hlook, henabled]
  · intro env project_id message hpid hch h0 hm
    rw [daytwoMain_ready env project_id hpid hch, daytwoSettle_perm env message h0 hm]
    rfl
  · intro env project_id hpid hch h0
    rw [daytwoMain_ready env project_id hpid hch, daytwoSettle_unexpected env h0]
    rfl
  · intro env project_id hpid hch h
    rw [daytwoMain_ready env project_id hpid hch, daytwoSettle_never_active env h]
    cases env.enableOk <;> rfl
  · intro env project_id accounts hpid hch h0 hne hf
    rw [daytwoMain_ready env project_id hpid hch, daytwoSettle_first_ok env accounts h0 hne]
    show (daytwoFinal env project_id (Sum.inl accounts)).1 = 1
    rw [daytwoFinal_no_open env project_id accounts hne hf]
  · intro env project_id accounts account hpid hch h0 hf hupd
    have hne : accounts ≠ [] := by
      intro h
      rw [h] at hf
      exact absurd hf (by simp)
    rw [daytwoMain_ready env project_id hpid hch, daytwoSettle_first_ok env accounts h0 hne]
    show (daytwoFinal env project_id (Sum.inl accounts)).1 = 0
    rw [daytwoFinal_single_ok env project_id accounts account hf hupd]

/-- Claim C7 witness (for the amended claim). -/
theorem exit_codes_amended_witness :
    (daytwoMain wEnvNoFile).1 = 1 ∧
    (daytwoMain wEnvEnabled).1 = 0 ∧
    (daytwoMain wEnvDenied).1 = 1 ∧
    (daytwoMain wEnvNeverActive).1 = 1 ∧
    (daytwoMain wEnvNoOpen).1 = 1 ∧
    (daytwoMain wEnvSuccess).1 = 0 ∧
    (dayoneMain wEnvPD = .crashed ∨ dayoneMain wEnvPD = .normal 0) :=
  ⟨exit_codes_amended.1 wEnvNoFile (by decide),
   exit_codes_amended.2.1 wEnvEnabled "proj-1" wInfoA (by decide) rfl rfl,
   exit_codes_amended.2.2.1 wEnvDenied "proj-1" "The caller does not have permission"
     (by decide) rfl rfl (by decide),
   exit_codes_amended.2.2.2.2.1 wEnvNeverActive "proj-1" (by decide) rfl
     (fun k => ⟨"Cloud Billing API service is disabled", rfl, by decide⟩),
   exit_codes_amended.2.2.2.2.2.1 wEnvNoOpen "proj-1" [wClosedAcct] (by decide) rfl rfl
     (by decide) (by decide),
   exit_codes_amended.2.2.2.2.2.2.1 wEnvSuccess "proj-1" [wTrialAcct] wTrialAcct
     (by decide) rfl rfl (by decide) rfl,
   exit_codes_amended.2.2.2.2.2.2.2 wEnvPD⟩

/-- Claim C10: `check_current_billing` is total — defined on every lookup
outcome — and maps a `NotFound` as well as any other lookup exception to
`(False, None)`; consequently a transient failure reading the project's
billing info makes the day-two main flow behave exactly as if billing were
not yet enabled (the run is not aborted at this step). -/
theorem billing_check_total :
    (check_current_billing .notFound = (false, none) ∧
      check_current_billing .otherError = (false, none)) ∧
    (∀ env : DayTwoEnv,
      daytwoMain { env with billingLookup := .otherError } =
        daytwoMain { env with billingLookup := .notFound }) := by
  refine ⟨⟨rfl, rfl⟩, ?_⟩
  intro env
  rfl
